import Mathlib

/-!
Verification of the AI-Assessments conversational assessment system.

The definitions below are shallow embeddings of the Python sources:
  * `src/job_assessment_executor.py` — turn classification and media extraction,
  * `src/app.py` — the final-verdict calculator of `StatefulJobAssessmentSystem`,
  * `src/src/tools/quiz_tools.py` — the label-reading quiz tools,
  * `src/src/tools/assessment_tools.py` — candidate-profile mutation tools.

Session state kept in the ADK `tool_context.state` mapping is modelled by
explicit state passing: each tool takes the relevant state slice and returns
the pair (result, new state).  Only keys assigned through
`tool_context.state[key] = value` persist across tool calls (ADK tracks a
state delta of assigned keys and the in-memory session service hands each
call a copy of the stored session), so a tool call that raises before any
such assignment leaves the stored state unchanged.  Python floats are
modelled by rationals, timestamps (`datetime.now().isoformat()`) by an
explicit `now : String` argument.
-/

namespace AIAssessments

/-! ### String helpers shared by the embeddings

Python string operations modelled on `List Char`: substring containment
(`needle in hay`), `str.lower()`, `str.strip()`, `str.splitlines()`. -/

/-- Occurrence of `needle` as a contiguous run inside `hay`
(Python `needle in hay`). -/
def containsSeq (needle : List Char) : List Char → Bool
  | [] => needle.isEmpty
  | c :: rest => needle.isPrefixOf (c :: rest) || containsSeq needle rest

/-- Python `needle in hay` on strings. -/
def containsSubstrB (hay needle : String) : Bool :=
  containsSeq needle.data hay.data

/-- Python `str.lower()` (ASCII case folding suffices for the data here). -/
def pyLower (s : String) : String :=
  String.mk (s.data.map Char.toLower)

/-- Characters matched by Python `str.strip()` and the regex class `\s`
(ASCII part). -/
def isPySpace (c : Char) : Bool :=
  c = ' ' || c = '\t' || c = '\n' || c = '\r' || c = '\x0b' || c = '\x0c'

/-- Python `str.strip()`. -/
def pyStrip (s : String) : String :=
  String.mk (((s.data.dropWhile isPySpace).reverse.dropWhile isPySpace).reverse)

/-- Split a character list at newline characters (Python `str.splitlines()`
for texts whose only line terminator is `\n`). -/
def splitLinesChars : List Char → List (List Char)
  | [] => [[]]
  | c :: rest =>
    match splitLinesChars rest with
    | [] => [[]]
    | l :: ls => if c = '\n' then [] :: l :: ls else (c :: l) :: ls

/-- Python `str.splitlines()` restricted to `\n` terminators. -/
def pySplitLines (s : String) : List String :=
  (splitLinesChars s.data).map String.mk

/-! ### Turn classification (C2)

`src/job_assessment_executor.py`, `_requires_user_input` (lines 238-240) and
`src/app.py`, `_determine_response_status` (lines 1388-1396). -/

/-- Python `JobAssessmentAgentExecutor._requires_user_input`:
`return "[STATUS:input_required]" in response_text`.  When this is `false`
the executor takes the completion branch (`updater.complete()`). -/
def requires_user_input (response_text : String) : Bool :=
  containsSubstrB response_text "[STATUS:input_required]"

/-- Python `A2AServer._determine_response_status`: completion marker wins, then the
continuation marker, and a text with neither marker falls through to the
default `"input_required"`. -/
def determine_response_status (response_text : String) : String :=
  if containsSubstrB response_text "[STATUS:completed]" then "completed"
  else if containsSubstrB response_text "[STATUS:input_required]" then "input_required"
  else "input_required"

/-! ### Label-reading quiz (C3, C7, C8, C10)

`src/src/tools/quiz_tools.py`.  The label dataset (`label_dataset/index.json`)
is an input file; its parsed contents are passed as the `label_data`
argument.  A label item is a JSON object whose keys the code reads with
`.get`, hence the `Option` fields. -/

/-- One entry of `label_dataset/index.json` as read by
`start_label_reading_quiz`. -/
structure LabelItem where
  category : Option String
  fields : List (String × String)
  file_paths : Option (List String)
  file_path : Option String
deriving Repr, DecidableEq

/-- One generated quiz question (`questions.append({...})` in
`start_label_reading_quiz`).  `image_paths` entries are `Option` because the
default branch `[label_item.get('file_path')]` can contain Python `None`. -/
structure QuizQuestion where
  label_index : Nat
  question : String
  expected_field : String
  expected_value : String
  image_paths : List (Option String)
deriving Repr, DecidableEq

/-- The `label_reading_quiz` dict stored in session state. -/
structure QuizState where
  labels : List LabelItem
  questions : List QuizQuestion
  current_question : Nat
  correct_answers : Nat
  quiz_active : Bool
deriving Repr, DecidableEq

/-- The slice of `tool_context.state` the quiz tools read and write.
`label_reading_quiz = none` models the key being absent (then
`state.get("label_reading_quiz", {})` yields `{}`, whose `quiz_active` is
falsy). -/
structure QuizSession where
  label_reading_quiz : Option QuizState
  current_label_images : List (Option String)
deriving Repr, DecidableEq

/-- Python `existing_quiz.get("quiz_active")` with `existing_quiz =
state.get("label_reading_quiz", {})`. -/
def quizActiveOf : Option QuizState → Bool
  | none => false
  | some q => q.quiz_active

/-- Rendering of a Python value in an f-string: `None` prints as `"None"`. -/
def pyShow : Option String → String
  | none => "None"
  | some s => s

/-- Python `f"[Image: {path}]"` (braces only in the Python source, not here). -/
def imageTag (p : Option String) : String :=
  "[Image: " ++ pyShow p ++ "]"

/-- Python `label_item.get('file_paths', [label_item.get('file_path')])`. -/
def itemImagePaths (item : LabelItem) : List (Option String) :=
  match item.file_paths with
  | some ps => ps.map some
  | none => [item.file_path]

/-- The categories kept by the filter in `start_label_reading_quiz`. -/
def relevantCategories : List String :=
  ["warehouse", "grocery", "beverage", "condiments"]

/-- The label-selection prefix of `start_label_reading_quiz`: filter by
category, fall back to `label_data[:3]` when empty, then take at most 3. -/
def selectLabels (label_data : List LabelItem) : List LabelItem :=
  let relevant_labels := label_data.filter (fun item =>
    match item.category with
    | some c => relevantCategories.contains c
    | none => false)
  let relevant_labels := if relevant_labels.isEmpty then label_data.take 3 else relevant_labels
  relevant_labels.take 3

/-- The ordered field names probed for each label
(`key_fields` in `start_label_reading_quiz`). -/
def key_fields : List String :=
  ["product", "brand", "net_weight", "volume", "variant", "wattage"]

/-- Python `len([q for q in questions if q['label_index'] == i])`. -/
def countLabelQuestions (qs : List QuizQuestion) (i : Nat) : Nat :=
  (qs.filter (fun q => q.label_index == i)).length

/-- Inner loop of the question generator: walk `key_fields` for label `i`,
appending a question per present field, breaking once the label has 3
questions. -/
def genQuestionsForItem (i : Nat) (item : LabelItem) :
    List String → List QuizQuestion → List QuizQuestion
  | [], acc => acc
  | field_name :: rest, acc =>
    match item.fields.lookup field_name with
    | none => genQuestionsForItem i item rest acc
    | some v =>
      let acc := acc ++ [⟨i, "What is the " ++ field_name ++ "?", field_name, v,
        itemImagePaths item⟩]
      if 3 ≤ countLabelQuestions acc i then acc
      else genQuestionsForItem i item rest acc

/-- The question-generation loop over `enumerate(selected_labels)`. -/
def generateQuestions (selected_labels : List LabelItem) : List QuizQuestion :=
  selected_labels.enum.foldl (fun acc p => genQuestionsForItem p.1 p.2 key_fields acc) []

/-- Result of `start_label_reading_quiz`; the Python function returns the
corresponding strings. -/
inductive StartQuizResult
  /-- Returned string "ERROR: Quiz is already active. Use answer_quiz_question instead." -/
  | error_already_active
  /-- Returned string "Quiz started. Looking at ... - Question 1/N: ..." -/
  | started (text : String)
  /-- Returned string "Quiz started but no questions available" -/
  | started_no_questions
deriving Repr, DecidableEq

/-- Python `start_label_reading_quiz` (quiz_tools.py lines 13-99): guard on an
already-active quiz, generate questions from the dataset, store the fresh
quiz state, and format the first question. -/
def start_label_reading_quiz (label_data : List LabelItem) (s : QuizSession) :
    StartQuizResult × QuizSession :=
  if quizActiveOf s.label_reading_quiz then
    (.error_already_active, s)
  else
    let selected_labels := selectLabels label_data
    let questions := generateQuestions selected_labels
    let quiz_state : QuizState :=
      { labels := selected_labels, questions := questions,
        current_question := 0, correct_answers := 0, quiz_active := true }
    let s := { s with label_reading_quiz := some quiz_state }
    match questions with
    | [] => (.started_no_questions, s)
    | first_question :: _ =>
      let image_paths := first_question.image_paths
      let s := { s with current_label_images := image_paths }
      let display :=
        if 1 < image_paths.length then
          String.intercalate " " (image_paths.map imageTag)
        else
          imageTag ((image_paths.head?).getD
            (some "label_dataset/samples/product_001.jpeg"))
      (.started ("Quiz started. Looking at " ++ display ++ " - Question 1/" ++
        toString questions.length ++ ": " ++ first_question.question), s)

/-- Result of `update_quiz_score_and_continue`; the Python function returns
the corresponding `json.dumps` payloads or the caught-exception string. -/
inductive QuizUpdateResult
  /-- Returned string "No active quiz found." -/
  | no_active_quiz
  /-- the `quiz_completed` JSON payload -/
  | quiz_completed (final_score : Nat) (total_questions : Nat) (accuracy : ℚ)
  /-- the `continue_quiz` JSON payload -/
  | continue_quiz (current_score : Nat) (total_answered : Nat)
      (next_question_num : Nat) (total_questions : Nat)
      (next_question : String) (image_display : String)
  /-- Returned string "Error updating score: division by zero" — the `ZeroDivisionError`
  raised by `correct_answers / len(questions)` caught by the handler. -/
  | error_division_by_zero
deriving Repr, DecidableEq

/-- Python `update_quiz_score_and_continue` (quiz_tools.py lines 147-210).  On the
`len(questions) = 0` path the division raises before any state key is
assigned, so the stored session is unchanged (see the header note on ADK
state deltas). -/
def update_quiz_score_and_continue (is_correct : Bool) (s : QuizSession) :
    QuizUpdateResult × QuizSession :=
  match s.label_reading_quiz with
  | none => (.no_active_quiz, s)
  | some quiz_state =>
    if !quiz_state.quiz_active then (.no_active_quiz, s)
    else
      let questions := quiz_state.questions
      let current_idx := quiz_state.current_question
      let correct_answers :=
        quiz_state.correct_answers + (if is_correct then 1 else 0)
      let next_idx := current_idx + 1
      let quiz_state :=
        { quiz_state with current_question := next_idx,
                          correct_answers := correct_answers }
      if h : questions.length ≤ next_idx then
        if questions.length = 0 then
          (.error_division_by_zero, s)
        else
          let accuracy : ℚ := (correct_answers : ℚ) / (questions.length : ℚ) * 100
          let quiz_state := { quiz_state with quiz_active := false }
          (.quiz_completed correct_answers questions.length accuracy,
            { s with label_reading_quiz := some quiz_state })
      else
        let next_question := questions.get ⟨next_idx, by omega⟩
        let image_paths := next_question.image_paths
        let image_display :=
          if 1 < image_paths.length then
            String.intercalate " " (image_paths.map imageTag)
          else
            imageTag ((image_paths.head?).getD
              (some "label_dataset/samples/default.jpeg"))
        (.continue_quiz correct_answers (current_idx + 1) (next_idx + 1)
            questions.length next_question.question image_display,
          { s with current_label_images := image_paths,
                   label_reading_quiz := some quiz_state })

/-- The two quiz operations available after a start.
`answer_quiz_question` (quiz_tools.py lines 102-144) reads the state but
assigns no key, so its state transition is the identity. -/
inductive QuizOp
  | answer (user_answer : String)
  | update (is_correct : Bool)
deriving Repr, DecidableEq

/-- State transition of one quiz tool call. -/
def quizStep (s : QuizSession) (op : QuizOp) : QuizSession :=
  match op with
  | .answer _ => s
  | .update is_correct => (update_quiz_score_and_continue is_correct s).2

/-- Run a sequence of quiz tool calls. -/
def runQuizOps (ops : List QuizOp) (s : QuizSession) : QuizSession :=
  ops.foldl quizStep s

/-! ### Candidate state and assessment tools (C6, C9)

`src/src/tools/assessment_tools.py` and the state keys created by
`create_initial_candidate_state` (`src/app.py` / `src/src/models/candidate.py`). -/

/-- One `assessment_history` entry, as written by
`complete_skill_assessment`.  `details` is an opaque JSON object, modelled
as an association list. -/
structure AssessmentEntry where
  skill : String
  score : ℚ
  grade : String
  timestamp : String
  details : List (String × String)
deriving Repr, DecidableEq

/-- One `interaction_history` entry appended by the assessment tools
(`{"timestamp", "type", "content", "metadata"}`). -/
structure InteractionEntry where
  timestamp : String
  type : String
  content : String
  metadata : List (String × String)
deriving Repr, DecidableEq

/-- The `session_metadata` dict. -/
structure SessionMetadata where
  total_assessments : Nat
  completed_skills : List String
  pending_skills : List String
  last_activity : String
deriving Repr, DecidableEq

/-- The candidate slice of session state, with the keys of
`create_initial_candidate_state`. -/
structure CandidateState where
  candidate_id : String
  candidate_name : String
  applied_role : String
  role_identified : Bool
  assessment_history : List AssessmentEntry
  skill_levels : List (String × ℚ)
  current_assessment : Option String
  interaction_history : List InteractionEntry
  assessment_status : String
  session_metadata : SessionMetadata
deriving Repr, DecidableEq

/-- Python dict assignment `d[k] = v`: replace in place when the key exists,
otherwise append. -/
def dictSet (d : List (String × ℚ)) (k : String) (v : ℚ) : List (String × ℚ) :=
  if d.any (fun p => p.1 == k) then
    d.map (fun p => if p.1 == k then (k, v) else p)
  else d ++ [(k, v)]

/-- Result of `complete_skill_assessment`: the success string
"Successfully completed S assessment with score X/10 and grade G". -/
inductive CompleteResult
  | success (skill : String) (score : ℚ) (grade : String)
deriving Repr, DecidableEq

/-- Python `complete_skill_assessment` (assessment_tools.py lines 14-69): build the
result entry, append it to `assessment_history`, set the skill level, fold
the skill into `session_metadata`, clear `current_assessment` and mark the
status completed.  The function performs no in-progress or skill-match
check anywhere. -/
def complete_skill_assessment (skill_name : String) (score : ℚ) (grade : String)
    (details : List (String × String)) (now : String) (s : CandidateState) :
    CompleteResult × CandidateState :=
  let assessment_result : AssessmentEntry :=
    { skill := skill_name, score := score, grade := grade,
      timestamp := now, details := details }
  let current_history := s.assessment_history ++ [assessment_result]
  let current_skill_levels := dictSet s.skill_levels skill_name score
  let current_metadata := s.session_metadata
  let completed_skills :=
    if current_metadata.completed_skills.contains skill_name then
      current_metadata.completed_skills
    else current_metadata.completed_skills ++ [skill_name]
  let pending_skills := current_metadata.pending_skills.erase skill_name
  (.success skill_name score grade,
    { s with
        assessment_history := current_history,
        skill_levels := current_skill_levels,
        session_metadata :=
          { total_assessments := current_history.length,
            completed_skills := completed_skills,
            pending_skills := pending_skills,
            last_activity := now },
        current_assessment := none,
        assessment_status := "completed" })

/-- Python `update_candidate_role` (assessment_tools.py lines 120-146): overwrite
`applied_role` and `role_identified`, touch `last_activity`, then append the
role-identification entry.  The entry's `previous_role` metadata reads
`state.get("applied_role", "unknown")` after the overwrite. -/
def update_candidate_role (role : String) (now : String) (s : CandidateState) :
    CandidateState :=
  let s := { s with applied_role := role, role_identified := true,
                    session_metadata :=
                      { s.session_metadata with last_activity := now } }
  let entry : InteractionEntry :=
    { timestamp := now, type := "role_identification",
      content := "Role identified as: " ++ role,
      metadata := [("previous_role", s.applied_role)] }
  { s with interaction_history := s.interaction_history ++ [entry] }

/-! ### Final verdict (C1, C5)

`src/app.py`, `StatefulJobAssessmentSystem._calculate_final_verdict`
(lines 1011-1083).  The competency map is loaded from
`prompts/competency_map.json`; its parsed contents are the
`competency_map` argument. -/

/-- The per-skill threshold object of `passing_thresholds`; each key is
optional in the JSON. -/
structure SkillThresholds where
  min_quality_rating : Option ℚ
  required_professional_grade : Option (List String)
  min_accuracy : Option ℚ
deriving Repr, DecidableEq

/-- One role of the competency map. -/
structure RoleRequirements where
  required_skills : List String
  passing_thresholds : List (String × SkillThresholds)
deriving Repr, DecidableEq

/-- The competency map (`{"roles": {...}}`). -/
structure CompetencyMap where
  roles : List (String × RoleRequirements)
deriving Repr, DecidableEq

/-- One value of the `results` dict built per required skill. -/
structure SkillResult where
  status : String
  pass : Bool
  score : Option ℚ
  grade : Option String
deriving Repr, DecidableEq

/-- The returned verdict dict: either the INCOMPLETE shape
`{"decision", "reason"}` or the decided shape
`{"decision", "skill_results", "overall_pass", "timestamp"}`. -/
inductive VerdictResult
  | incomplete (reason : String)
  | report (decision : String) (skill_results : List (String × SkillResult))
      (overall_pass : Bool) (timestamp : String)
deriving Repr, DecidableEq

/-- The fuzzy skill match of the history scan:
`skill.lower() in assessment_skill or assessment_skill in skill.lower()`. -/
def skillMatches (skill : String) (assessment : AssessmentEntry) : Bool :=
  let assessment_skill := pyLower assessment.skill
  containsSubstrB assessment_skill (pyLower skill) ||
    containsSubstrB (pyLower skill) assessment_skill

/-- Python `thresholds.get(skill, {})`. -/
def thresholdsFor (thresholds : List (String × SkillThresholds)) (skill : String) :
    SkillThresholds :=
  (thresholds.lookup skill).getD ⟨none, none, none⟩

/-- The per-skill body of the verdict loop: scan `assessment_history` for the
first fuzzy match (the Python loop breaks at the first hit), then apply every
configured threshold check. -/
def checkSkill (thresholds : List (String × SkillThresholds))
    (assessment_history : List AssessmentEntry) (skill : String) : SkillResult :=
  match assessment_history.find? (skillMatches skill) with
  | none => { status := "MISSING", pass := false, score := none, grade := none }
  | some skill_assessment =>
    let skill_thresholds := thresholdsFor thresholds skill
    let skill_pass :=
      (match skill_thresholds.min_quality_rating with
        | some min_rating => !(decide (skill_assessment.score < min_rating))
        | none => true) &&
      (match skill_thresholds.required_professional_grade with
        | some required_grades => required_grades.contains skill_assessment.grade
        | none => true) &&
      (match skill_thresholds.min_accuracy with
        | some min_accuracy => !(decide (skill_assessment.score < min_accuracy))
        | none => true)
    { status := "COMPLETED", pass := skill_pass,
      score := some skill_assessment.score, grade := some skill_assessment.grade }

/-- Python `_calculate_final_verdict`: INCOMPLETE on a falsy or unknown role, else
one result per required skill (the Python `results` dict, in iteration
order) and PASS iff every skill passed.  `now` is the
`datetime.now().isoformat()` stamped into the decided result. -/
def calculate_final_verdict (competency_map : CompetencyMap)
    (state : CandidateState) (now : String) : VerdictResult :=
  let role := state.applied_role
  let assessment_history := state.assessment_history
  if role = "" then .incomplete "Unknown role or missing assessments"
  else
    match competency_map.roles.lookup role with
    | none => .incomplete "Unknown role or missing assessments"
    | some role_requirements =>
      let results := role_requirements.required_skills.map (fun skill =>
        (skill, checkSkill role_requirements.passing_thresholds
          assessment_history skill))
      let overall_pass := results.all (fun p => p.2.pass)
      .report (if overall_pass then "PASS" else "FAIL") results overall_pass now

/-- A verdict with the wall-clock timestamp field erased — everything the
inputs determine. -/
def verdictSansTimestamp : VerdictResult → VerdictResult
  | .incomplete reason => .incomplete reason
  | .report decision skill_results overall_pass _ =>
    .report decision skill_results overall_pass ""

/-! ### Media reference extraction (C4)

`src/job_assessment_executor.py`, `_create_response_parts`
(lines 244-335).  The function scans the response text line by line and, for
each canonical `"Looking at [Image:"` line, runs
`re.search(r'\[Image:\s*([^\]]+)\]', line)` — a single leftmost match per
line — falling back to `re.search(r'Image:\s*([^\n\s]+)', line)` on
`"Image:"`-prefixed lines when the canonical pass found nothing.  One
`FilePart` is then appended per extracted non-blank path, in order. -/

/-- The capture group of `\[Image:\s*([^\]]+)\]` given the characters
between `[Image:` and the first following `]`: the greedy `\s*` eats the
leading whitespace, backing off one character when the content is
all-whitespace so that `[^\]]+` still matches; empty content means no match
at this position. -/
def imageRefGroup (content : List Char) : Option (List Char) :=
  if content.isEmpty then none
  else
    let stripped := content.dropWhile isPySpace
    if stripped.isEmpty then content.getLast?.map (fun c => [c])
    else some stripped

/-- Python `re.search(r'\[Image:\s*([^\]]+)\]', line)`: leftmost match, first
capture group. -/
def searchImageRef : List Char → Option String
  | [] => none
  | c :: rest =>
    if ("[Image:".data).isPrefixOf (c :: rest) then
      let after := (c :: rest).drop 7
      let content := after.takeWhile (fun ch => ch ≠ ']')
      if content.length < after.length then
        match imageRefGroup content with
        | some grp => some (String.mk grp)
        | none => searchImageRef rest
      else searchImageRef rest
    else searchImageRef rest

/-- Python `re.search(r'Image:\s*([^\n\s]+)', line)`: leftmost match, first capture
group (the fallback "older format"). -/
def searchImageRefOld : List Char → Option String
  | [] => none
  | c :: rest =>
    if ("Image:".data).isPrefixOf (c :: rest) then
      let after := (c :: rest).drop 6
      let grp := (after.dropWhile isPySpace).takeWhile (fun ch => !isPySpace ch)
      if grp.isEmpty then searchImageRefOld rest else some (String.mk grp)
    else searchImageRefOld rest

/-- The `image_paths` list built by `_create_response_parts`: canonical
`"Looking at [Image:"` lines first, the older `"Image:"` line format only
when the canonical pass found nothing. -/
def extractImagePaths (response_text : String) : List String :=
  if containsSubstrB response_text "Looking at [Image:" ||
      containsSubstrB response_text "Image: " then
    let ls := pySplitLines response_text
    let image_paths := ls.filterMap (fun line =>
      let line := pyStrip line
      if ("Looking at [Image:".data).isPrefixOf line.data then
        searchImageRef line.data
      else none)
    if image_paths.isEmpty then
      ls.filterMap (fun line =>
        let line := pyStrip line
        if ("Image:".data).isPrefixOf line.data then
          searchImageRefOld line.data
        else none)
    else image_paths
  else []

/-- The ordered media references turned into `FilePart`s: every extracted
path that is non-blank after stripping yields exactly one part. -/
def create_media_refs (response_text : String) : List String :=
  (extractImagePaths response_text).filterMap (fun image_path =>
    let image_path := pyStrip image_path
    if image_path.isEmpty then none else some image_path)

/-! ### Concrete fixtures used by the witnesses and counterexamples -/

/-- A freshly created candidate (the shape of
`create_initial_candidate_state`). -/
def baseCandidate : CandidateState :=
  { candidate_id := "c-001", candidate_name := "Asha",
    applied_role := "unknown", role_identified := false,
    assessment_history := [], skill_levels := [],
    current_assessment := none, interaction_history := [],
    assessment_status := "started",
    session_metadata :=
      { total_assessments := 0, completed_skills := [], pending_skills := [],
        last_activity := "2024-01-01T00:00:00" } }

/-- A one-role competency map: tailor requires stitching with
`min_quality_rating = 7`. -/
def tailorMap : CompetencyMap :=
  { roles := [("tailor",
      { required_skills := ["stitching"],
        passing_thresholds := [("stitching",
          { min_quality_rating := some 7,
            required_professional_grade := none,
            min_accuracy := none })] })] }

/-- A tailor candidate assessed twice on stitching: first a failing 5/C,
then a passing 9/A. -/
def twiceAssessed : CandidateState :=
  { baseCandidate with
      applied_role := "tailor",
      assessment_history :=
        [{ skill := "stitching", score := 5, grade := "C",
           timestamp := "2024-01-01T10:00:00", details := [] },
         { skill := "stitching", score := 9, grade := "A",
           timestamp := "2024-01-02T10:00:00", details := [] }] }

/-- A tailor candidate assessed once on stitching. -/
def onceAssessed : CandidateState :=
  { baseCandidate with
      applied_role := "tailor",
      assessment_history :=
        [{ skill := "stitching", score := 8, grade := "A",
           timestamp := "2024-01-01T10:00:00", details := [] }] }

/-- A candidate with a stitching assessment in flight. -/
def inProgressCandidate : CandidateState :=
  { baseCandidate with current_assessment := some "stitching",
                       assessment_status := "in_progress" }

/-- A session with an active quiz part-way through. -/
def activeQuizState : QuizState :=
  { labels := [], questions := [], current_question := 2, correct_answers := 1,
    quiz_active := true }

/-- Session holding `activeQuizState`. -/
def activeQuizSession : QuizSession :=
  { label_reading_quiz := some activeQuizState, current_label_images := [] }

/-- A warehouse label whose fields generate exactly three quiz questions. -/
def riceLabel : LabelItem :=
  { category := some "warehouse",
    fields := [("product", "Basmati Rice"), ("brand", "Daawat"),
               ("net_weight", "5 kg")],
    file_paths := none,
    file_path := some "label_dataset/samples/product_001.jpeg" }

/-- The empty session (no quiz key, no images). -/
def emptySession : QuizSession :=
  { label_reading_quiz := none, current_label_images := [] }

/-- Session after starting a 3-question quiz from `riceLabel`. -/
def quiz3s1 : QuizSession :=
  (start_label_reading_quiz [riceLabel] emptySession).2

/-- After the first correct answer is recorded. -/
def quiz3s2 : QuizSession := (update_quiz_score_and_continue true quiz3s1).2

/-- After the second correct answer is recorded. -/
def quiz3s3 : QuizSession := (update_quiz_score_and_continue true quiz3s2).2

/-- The final, completing call: the third answer was incorrect. -/
def quiz3final : QuizUpdateResult × QuizSession :=
  update_quiz_score_and_continue false quiz3s3

/-- The quiz state stored in `quiz3s3`: cursor on the last question, two
correct answers so far. -/
def q3 : QuizState :=
  { labels := selectLabels [riceLabel],
    questions := generateQuestions (selectLabels [riceLabel]),
    current_question := 2, correct_answers := 2, quiz_active := true }

/-- The session invariant behind claims about the quiz cursor: the cursor
never passes the question count, and while the quiz is active it is
strictly inside the question list (or the list is empty and the cursor
still 0). -/
def quizSessionInv (s : QuizSession) : Prop :=
  ∀ q, s.label_reading_quiz = some q →
    q.current_question ≤ q.questions.length ∧
    (q.quiz_active = true →
      q.current_question < q.questions.length ∨
        (q.questions.length = 0 ∧ q.current_question = 0))

/-! ### C2 — default turn status for marker-less responses -/

/-- C2 counterexample: a response with neither status marker makes the SDK
executor's `_requires_user_input` return `false`, so the executor takes the
completion branch (`updater.complete()`) — the session is silently treated
as complete, contrary to the claim. -/
theorem requires_user_input_false_on_markerless :
    containsSubstrB "Please tell me your name." "[STATUS:completed]" = false ∧
    containsSubstrB "Please tell me your name." "[STATUS:input_required]" = false ∧
    requires_user_input "Please tell me your name." = false := by
  decide

/-- C2 (amended): for a response containing neither marker, the Flask
server's `_determine_response_status` does default to `input_required`, but
the SDK executor's `_requires_user_input` returns `false`, so that path
classifies the turn as complete. -/
theorem markerless_response_status (s : String)
    (hc : containsSubstrB s "[STATUS:completed]" = false)
    (hi : containsSubstrB s "[STATUS:input_required]" = false) :
    determine_response_status s = "input_required" ∧
      requires_user_input s = false := by
  constructor
  · simp [determine_response_status, hc, hi]
  · simp [requires_user_input, hi]

/-- C2 witness: the amended statement at a concrete marker-less response. -/
theorem markerless_response_status_witness :
    determine_response_status "What is your role?" = "input_required" ∧
      requires_user_input "What is your role?" = false :=
  markerless_response_status "What is your role?" (by decide) (by decide)

/-! ### C3 — starting an already-active quiz is a rejected no-op -/

/-- C3: when the stored quiz is active, `start_label_reading_quiz` returns
the already-active error and leaves the session — in particular
`current_question` and `correct_answers` — unchanged. -/
theorem start_on_active_quiz_noop (label_data : List LabelItem)
    (s : QuizSession) (q : QuizState)
    (hq : s.label_reading_quiz = some q) (ha : q.quiz_active = true) :
    start_label_reading_quiz label_data s = (.error_already_active, s) := by
  unfold start_label_reading_quiz
  rw [hq]
  simp [quizActiveOf, ha]

/-- C3 witness: starting over a concrete active quiz session. -/
theorem start_on_active_quiz_noop_witness :
    start_label_reading_quiz [riceLabel] activeQuizSession =
      (.error_already_active, activeQuizSession) :=
  start_on_active_quiz_noop [riceLabel] activeQuizSession activeQuizState
    rfl rfl

/-! ### C4 — multiple canonical media references in one line -/

/-- C4: on the spec's two-reference scenario line the extraction pipeline
yields only the first reference — `re.search` returns a single match per
canonical line, so `media_refs` has length 1, not 2. -/
theorem media_refs_drop_second_reference :
    create_media_refs
        "Looking at [Image: a.jpg][Image: b.jpg] - Question 1/3: What is the product?" =
      ["a.jpg"] ∧
    (create_media_refs
        "Looking at [Image: a.jpg][Image: b.jpg] - Question 1/3: What is the product?").length ≠ 2 := by
  decide

/-! ### C6 — completeAssessment has no InvalidTransition guard -/

/-- C6 counterexample: with no assessment in progress
(`current_assessment = none`) the tool succeeds and appends to
`assessment_history`, and likewise under a skill mismatch — it never fails
with an invalid-transition result. -/
theorem complete_assessment_unguarded :
    baseCandidate.current_assessment = none ∧
    (complete_skill_assessment "stitching" 8 "A" [] "t1" baseCandidate).1 =
      .success "stitching" 8 "A" ∧
    (complete_skill_assessment "stitching" 8 "A" [] "t1" baseCandidate).2.assessment_history =
      [{ skill := "stitching", score := 8, grade := "A", timestamp := "t1",
         details := [] }] ∧
    inProgressCandidate.current_assessment = some "stitching" ∧
    (complete_skill_assessment "plumbing" 3 "F" [] "t2" inProgressCandidate).1 =
      .success "plumbing" 3 "F" ∧
    (complete_skill_assessment "plumbing" 3 "F" [] "t2" inProgressCandidate).2.assessment_history ≠
      inProgressCandidate.assessment_history := by
  decide

/-- C6 (amended): `complete_skill_assessment` performs no in-progress or
skill-match check: for every input it returns the success result, appends
the entry to `assessment_history`, clears `current_assessment` and marks the
status completed. -/
theorem complete_assessment_always_succeeds (skill_name : String) (score : ℚ)
    (grade : String) (details : List (String × String)) (now : String)
    (s : CandidateState) :
    (complete_skill_assessment skill_name score grade details now s).1 =
      .success skill_name score grade ∧
    (complete_skill_assessment skill_name score grade details now s).2.assessment_history =
      s.assessment_history ++
        [{ skill := skill_name, score := score, grade := grade,
           timestamp := now, details := details }] ∧
    (complete_skill_assessment skill_name score grade details now s).2.current_assessment =
      none ∧
    (complete_skill_assessment skill_name score grade details now s).2.assessment_status =
      "completed" :=
  ⟨rfl, rfl, rfl, rfl⟩

/-! ### C9 — previous_role records the new role -/

/-- C9: the interaction-history entry appended by `update_candidate_role`
carries `metadata.previous_role` equal to the role just assigned (the
overwrite of `applied_role` happens before the entry is built), so the role
held before the call is never preserved in the audit trail. -/
theorem update_role_previous_role_is_new_role (role now : String)
    (s : CandidateState) :
    (update_candidate_role role now s).interaction_history =
      s.interaction_history ++
        [{ timestamp := now, type := "role_identification",
           content := "Role identified as: " ++ role,
           metadata := [("previous_role", role)] }] :=
  rfl

/-! ### C5 — purity of the verdict calculator -/

/-- C5 counterexample: the decided verdict embeds `datetime.now()`, so two
calls with identical role, history and competency table but different wall
clocks return different values — the output is not byte-identical. -/
theorem verdict_not_byte_identical :
    calculate_final_verdict tailorMap onceAssessed "2024-01-01T00:00:00" ≠
      calculate_final_verdict tailorMap onceAssessed "2024-01-01T00:00:01" := by
  decide

/-- C5 (amended): the verdict calculator is deterministic in everything but
the embedded timestamp: erasing the timestamp field, two calls with
identical inputs agree (and INCOMPLETE results, which carry no timestamp,
are fully identical). -/
theorem verdict_deterministic_modulo_timestamp (m : CompetencyMap)
    (s : CandidateState) (t1 t2 : String) :
    verdictSansTimestamp (calculate_final_verdict m s t1) =
      verdictSansTimestamp (calculate_final_verdict m s t2) := by
  unfold calculate_final_verdict
  by_cases h : s.applied_role = ""
  · simp [h]
  · simp only [if_neg h]
    cases hlk : m.roles.lookup s.applied_role <;> simp [verdictSansTimestamp]

/-! ### C1 — which matching history entry the verdict checks -/

/-- C1 counterexample: with two fuzzy-matching stitching entries (first 5/C,
most recent 9/A) the verdict checks the first entry: the skill result
records score 5 and grade C and the decision is FAIL, although the entry
appended last has score 9 and grade A (which passes the 7 threshold). -/
theorem verdict_checks_first_entry_counterexample :
    (twiceAssessed.assessment_history.filter (skillMatches "stitching")).length = 2 ∧
    twiceAssessed.assessment_history.getLast? =
      some { skill := "stitching", score := 9, grade := "A",
             timestamp := "2024-01-02T10:00:00", details := [] } ∧
    calculate_final_verdict tailorMap twiceAssessed "2024-01-03T00:00:00" =
      .report "FAIL"
        [("stitching",
          { status := "COMPLETED", pass := false, score := some 5,
            grade := some "C" })]
        false "2024-01-03T00:00:00" := by
  decide

/-- Looking a key up in an association list built by pairing each list
element with a function of itself. -/
theorem lookup_map_pair {α : Type} (f : String → α) :
    ∀ (l : List String) (k : String), k ∈ l →
      (l.map (fun x => (x, f x))).lookup k = some (f k) := by
  intro l
  induction l with
  | nil => intro k hk; cases hk
  | cons a t ih =>
    intro k hk
    simp only [List.map_cons, List.lookup]
    cases h : k == a with
    | true =>
      have he : k = a := eq_of_beq h
      subst he
      rfl
    | false =>
      have hne : k ≠ a := fun he => by subst he; simp at h
      have hkt : k ∈ t := by
        cases List.mem_cons.mp hk with
        | inl h1 => exact absurd h1 hne
        | inr h1 => exact h1
      exact ih k hkt

/-- C1 (amended): for every role in the competency table and every required
skill with at least one fuzzy-matching history entry, the verdict checks
the FIRST matching entry in history order (the scan breaks at the first
hit), i.e. the earliest appended one — its score and grade appear in the
skill result. -/
theorem verdict_checks_first_matching_entry (m : CompetencyMap)
    (s : CandidateState) (now skill : String) (reqs : RoleRequirements)
    (a : AssessmentEntry)
    (hrole : s.applied_role ≠ "")
    (hlk : m.roles.lookup s.applied_role = some reqs)
    (hskill : skill ∈ reqs.required_skills)
    (hfind : s.assessment_history.find? (skillMatches skill) = some a) :
    ∃ rs op, calculate_final_verdict m s now =
        .report (if op then "PASS" else "FAIL") rs op now ∧
      rs.lookup skill =
        some (checkSkill reqs.passing_thresholds s.assessment_history skill) ∧
      (checkSkill reqs.passing_thresholds s.assessment_history skill).score =
        some a.score ∧
      (checkSkill reqs.passing_thresholds s.assessment_history skill).grade =
        some a.grade := by
  unfold calculate_final_verdict
  rw [if_neg hrole, hlk]
  refine ⟨_, _, rfl, ?_, ?_, ?_⟩
  · exact lookup_map_pair _ reqs.required_skills skill hskill
  · simp [checkSkill, hfind]
  · simp [checkSkill, hfind]

/-- C1 witness: the amended statement at the two-entry fixture — the entry
checked is the first stitching assessment (5/C). -/
theorem verdict_checks_first_matching_entry_witness :
    ∃ rs op, calculate_final_verdict tailorMap twiceAssessed "2024-01-03T00:00:00" =
        .report (if op then "PASS" else "FAIL") rs op "2024-01-03T00:00:00" ∧
      rs.lookup "stitching" =
        some (checkSkill [("stitching",
          { min_quality_rating := some 7, required_professional_grade := none,
            min_accuracy := none })] twiceAssessed.assessment_history "stitching") ∧
      (checkSkill [("stitching",
          { min_quality_rating := some 7, required_professional_grade := none,
            min_accuracy := none })] twiceAssessed.assessment_history "stitching").score =
        some (5 : ℚ) ∧
      (checkSkill [("stitching",
          { min_quality_rating := some 7, required_professional_grade := none,
            min_accuracy := none })] twiceAssessed.assessment_history "stitching").grade =
        some "C" :=
  verdict_checks_first_matching_entry tailorMap twiceAssessed
    "2024-01-03T00:00:00" "stitching"
    { required_skills := ["stitching"],
      passing_thresholds := [("stitching",
        { min_quality_rating := some 7, required_professional_grade := none,
          min_accuracy := none })] }
    { skill := "stitching", score := 5, grade := "C",
      timestamp := "2024-01-01T10:00:00", details := [] }
    (by decide) (by decide) (by decide) (by decide)

/-! ### C8 — the 3-question scenario -/

/-- Characterization of the completing score update: when the active quiz
sits on its last question, the call returns the completion payload with the
updated score, the question count and `accuracy = (score / total) * 100`,
and stores the quiz with `quiz_active = false`. -/
theorem update_quiz_completing (b : Bool) (s : QuizSession) (q : QuizState)
    (h : s.label_reading_quiz = some q) (hact : q.quiz_active = true)
    (hlen : q.questions.length = q.current_question + 1) :
    update_quiz_score_and_continue b s =
      (.quiz_completed (q.correct_answers + if b then 1 else 0)
          q.questions.length
          (((q.correct_answers + if b then 1 else 0 : ℕ) : ℚ) /
            (q.questions.length : ℚ) * 100),
        { s with label_reading_quiz := some
                   ({ q with current_question := q.current_question + 1,
                             correct_answers :=
                               q.correct_answers + if b then 1 else 0,
                             quiz_active := false }) }) := by
  unfold update_quiz_score_and_continue
  rw [h]
  simp only [hact, Bool.not_true, Bool.false_eq_true, if_false]
  rw [dif_pos (by omega : q.questions.length ≤ q.current_question + 1)]
  rw [if_neg (by omega : ¬q.questions.length = 0)]

/-- The result component of the scenario's final call, spelled with exact
rational arithmetic. -/
theorem quiz3final_fst : quiz3final.1 = .quiz_completed 2 3 (200 / 3) := by
  have hstate : quiz3s3.label_reading_quiz = some q3 := by decide
  have hlen : q3.questions.length = q3.current_question + 1 := by decide
  have hfinal := update_quiz_completing false quiz3s3 q3 hstate rfl hlen
  have h1 : (update_quiz_score_and_continue false quiz3s3).1 =
      .quiz_completed (q3.correct_answers + if false then 1 else 0)
        q3.questions.length
        (((q3.correct_answers + if false then 1 else 0 : ℕ) : ℚ) /
          (q3.questions.length : ℚ) * 100) := by
    rw [hfinal]
  have h2 : q3.correct_answers + (if false then 1 else 0) = 2 := by decide
  have h3 : q3.questions.length = 3 := by decide
  rw [h2, h3] at h1
  show (update_quiz_score_and_continue false quiz3s3).1 = _
  rw [h1]
  norm_num

/-- C8 counterexample: the scenario's completion payload carries
`accuracy = (2 / 3) * 100 = 200/3 = 66.666...`, which is not the claimed
66.67. -/
theorem quiz_scenario_accuracy_counterexample :
    (quiz3s1.label_reading_quiz.map fun q => q.questions.length) = some 3 ∧
    quiz3final.1 = .quiz_completed 2 3 (200 / 3) ∧
    (200 / 3 : ℚ) ≠ 6667 / 100 := by
  exact ⟨by decide, quiz3final_fst, by norm_num⟩

/-- C8 (amended): starting the 3-question quiz and recording correct,
correct, incorrect in order marks the quiz inactive and returns the
completion payload with score 2, total 3 and accuracy 200/3 (the exact
value of (2/3)·100; the human-readable message renders it as 66.7%). -/
theorem quiz_scenario_completion :
    (quiz3s1.label_reading_quiz.map fun q => q.questions.length) = some 3 ∧
    quiz3final.1 = .quiz_completed 2 3 (200 / 3) ∧
    (quiz3final.2.label_reading_quiz.map fun q => q.quiz_active) = some false := by
  exact ⟨by decide, quiz3final_fst, by decide⟩

/-! ### C10 — a quiz started with no questions can never complete -/

/-- C10: when the dataset yields an empty question list, the start tool
still stores an active quiz; every subsequent score update hits the
division by `len(questions) = 0` in the completion branch, returns the
caught-error result, and leaves the stored state — in particular
`quiz_active = true` — unchanged, so the quiz never completes. -/
theorem empty_question_quiz_never_completes (label_data : List LabelItem)
    (s0 : QuizSession)
    (h0 : s0.label_reading_quiz = none)
    (hgen : generateQuestions (selectLabels label_data) = []) :
    (start_label_reading_quiz label_data s0).1 = .started_no_questions ∧
    (start_label_reading_quiz label_data s0).2.label_reading_quiz =
      some { labels := selectLabels label_data, questions := [],
             current_question := 0, correct_answers := 0, quiz_active := true } ∧
    (∀ b, update_quiz_score_and_continue b (start_label_reading_quiz label_data s0).2 =
      (.error_division_by_zero, (start_label_reading_quiz label_data s0).2)) ∧
    (∀ ops, runQuizOps ops (start_label_reading_quiz label_data s0).2 =
      (start_label_reading_quiz label_data s0).2) := by
  have hstart : start_label_reading_quiz label_data s0 =
      (.started_no_questions,
        { s0 with label_reading_quiz :=
                    some ({ labels := selectLabels label_data, questions := [],
                            current_question := 0, correct_answers := 0,
                            quiz_active := true }) }) := by
    unfold start_label_reading_quiz
    rw [h0]
    simp [quizActiveOf, hgen]
  have hupd : ∀ b,
      update_quiz_score_and_continue b (start_label_reading_quiz label_data s0).2 =
        (.error_division_by_zero, (start_label_reading_quiz label_data s0).2) := by
    intro b
    rw [hstart]
    rfl
  have hstep : ∀ op, quizStep (start_label_reading_quiz label_data s0).2 op =
      (start_label_reading_quiz label_data s0).2 := by
    intro op
    cases op with
    | answer ua => rfl
    | update b => show (update_quiz_score_and_continue b _).2 = _; rw [hupd b]
  refine ⟨by rw [hstart], by rw [hstart], hupd, ?_⟩
  intro ops
  induction ops with
  | nil => rfl
  | cons op rest ih =>
    show runQuizOps rest (quizStep _ op) = _
    rw [hstep op]
    exact ih

/-- C10 witness: the empty dataset. -/
theorem empty_question_quiz_never_completes_witness :
    (start_label_reading_quiz [] emptySession).1 = .started_no_questions ∧
    (start_label_reading_quiz [] emptySession).2.label_reading_quiz =
      some { labels := selectLabels [], questions := [],
             current_question := 0, correct_answers := 0, quiz_active := true } ∧
    (∀ b, update_quiz_score_and_continue b (start_label_reading_quiz [] emptySession).2 =
      (.error_division_by_zero, (start_label_reading_quiz [] emptySession).2)) ∧
    (∀ ops, runQuizOps ops (start_label_reading_quiz [] emptySession).2 =
      (start_label_reading_quiz [] emptySession).2) :=
  empty_question_quiz_never_completes [] emptySession rfl rfl

/-! ### C7 — the cursor invariant -/

/-- A score update preserves the quiz-session invariant. -/
theorem update_preserves_inv (b : Bool) (s : QuizSession)
    (h : quizSessionInv s) :
    quizSessionInv (update_quiz_score_and_continue b s).2 := by
  unfold update_quiz_score_and_continue
  cases hlq : s.label_reading_quiz with
  | none => exact h
  | some q =>
    obtain ⟨hle, hact⟩ := h q hlq
    by_cases hab : q.quiz_active = true
    · simp only [hab, Bool.not_true, Bool.false_eq_true, if_false]
      split
      next hlen =>
        split
        next hzero => exact h
        next hzero =>
          intro q' hq'
          cases hq'
          have := hact hab
          constructor
          · simp only []
            omega
          · intro habs
            simp at habs
      next hlen =>
        intro q' hq'
        cases hq'
        constructor
        · simp only []
          omega
        · intro _
          left
          simp only []
          omega
    · have hab' : q.quiz_active = false := by
        cases hq : q.quiz_active
        · rfl
        · exact absurd hq hab
      simp only [hab', Bool.not_false, if_true]
      exact h

/-- Any quiz tool call preserves the quiz-session invariant. -/
theorem quizStep_preserves_inv (s : QuizSession) (op : QuizOp)
    (h : quizSessionInv s) : quizSessionInv (quizStep s op) := by
  cases op with
  | answer ua => exact h
  | update b => exact update_preserves_inv b s h

/-- A sequence of quiz tool calls preserves the quiz-session invariant. -/
theorem runQuizOps_preserves_inv (ops : List QuizOp) (s : QuizSession)
    (h : quizSessionInv s) : quizSessionInv (runQuizOps ops s) := by
  induction ops generalizing s with
  | nil => exact h
  | cons op rest ih => exact ih (quizStep s op) (quizStep_preserves_inv s op h)

/-- Starting a quiz establishes the quiz-session invariant. -/
theorem start_establishes_inv (label_data : List LabelItem) (s : QuizSession)
    (h : quizSessionInv s) :
    quizSessionInv (start_label_reading_quiz label_data s).2 := by
  unfold start_label_reading_quiz
  by_cases hab : quizActiveOf s.label_reading_quiz = true
  · simp only [hab, if_true]
    exact h
  · simp only [hab, Bool.false_eq_true, if_false]
    cases hq : generateQuestions (selectLabels label_data) with
    | nil =>
      intro q' hq'
      cases hq'
      exact ⟨Nat.le_refl 0, fun _ => Or.inr ⟨rfl, rfl⟩⟩
    | cons first rest =>
      intro q' hq'
      cases hq'
      constructor
      · exact Nat.zero_le _
      · intro _
        left
        simp only [List.length_cons]
        omega

/-- C7: every quiz state reachable from a quiz start by any sequence of
answer and score-update tool calls satisfies
`0 ≤ current_question ≤ len(questions)`. -/
theorem quiz_cursor_invariant (label_data : List LabelItem) (s0 : QuizSession)
    (ops : List QuizOp) (q : QuizState)
    (h0 : s0.label_reading_quiz = none)
    (hq : (runQuizOps ops (start_label_reading_quiz label_data s0).2).label_reading_quiz =
      some q) :
    0 ≤ q.current_question ∧ q.current_question ≤ q.questions.length := by
  have hinv0 : quizSessionInv s0 := by
    intro q' hq'
    rw [h0] at hq'
    cases hq'
  have h1 := start_establishes_inv label_data s0 hinv0
  have h2 := runQuizOps_preserves_inv ops _ h1
  exact ⟨Nat.zero_le _, (h2 q hq).1⟩

/-- C7 witness: the invariant at a freshly started empty quiz. -/
theorem quiz_cursor_invariant_witness :
    0 ≤ (QuizState.mk [] [] 0 0 true).current_question ∧
    (QuizState.mk [] [] 0 0 true).current_question ≤
      (QuizState.mk [] [] 0 0 true).questions.length :=
  quiz_cursor_invariant [] emptySession [] (QuizState.mk [] [] 0 0 true)
    rfl (by decide)

end AIAssessments
